import Mathlib

/-!
Shallow embedding of the postgres write pipeline in
src/plugins/postgres_plugin/evt_pg.cpp.

Buffers (fmt memory buffers in the C++ code) are modelled as the text they
accumulate; each translator is modelled as the list of statement lines it
appends to the buffered statement log ("trx context"), and the bulk-append
("copy context") row builders as the row text they append.  Database state
needed by the startup checks is modelled explicitly: the stats table as an
association list keyed by its primary key, the blocks table as a list of
(block_num, block_id) rows.  Exceptions (EVT_THROW / EVT_ASSERT) are
modelled with Except; the message payloads are elided, only the exception
type (sync vs version) is kept.
-/

namespace pg

/-- The single-quote character (ASCII 39), used by the statement log's SQL
literal quoting. -/
def sq : Char := Char.ofNat 39

/-- Exception types thrown by the startup checks: chain::postgres_sync_exception
and chain::postgres_version_exception in the C++ source. -/
inductive PgError where
  | syncError : PgError
  | versionError : PgError
deriving DecidableEq, Repr

/-- Embeds pg::read_stat (evt_pg.cpp lines 625-643): SELECT value FROM stats
WHERE key = $1, returning the first row whose key matches (key is the table's
primary key).  Returns none when no row matches (PG_FAIL). -/
def read_stat : List (String × String) → String → Option String
  | [], _ => none
  | r :: rest, key => if r.1 = key then some r.2 else read_stat rest key

/-- Embeds pg::get_latest_block_id (evt_pg.cpp lines 572-589): SELECT block_id
FROM blocks ORDER BY block_num DESC LIMIT 1.  The blocks table is a list of
(block_num, block_id) rows; the row with the maximal block_num is selected
(the first such row when several share the maximal number, refining the
unspecified tie order of the SQL sort).  Returns none when the table is
empty (PG_FAIL). -/
def get_latest_block_id (blocks : List (Nat × String)) : Option String :=
  (blocks.foldl
    (fun best row =>
      match best with
      | none => some row
      | some b => if row.1 > b.1 then some row else some b)
    none).map (fun r => r.2)

/-- Embeds pg::check_last_sync_block (evt_pg.cpp lines 396-409): read the
last_sync_block_id stat (absent: throw postgres_sync_exception); read the
latest block id (table empty: throw postgres_sync_exception); assert the two
are equal (mismatch: throw postgres_sync_exception); on success record the
latest block id in last_sync_block_id_, modelled as the Except.ok payload. -/
def check_last_sync_block (stats : List (String × String))
    (blocks : List (Nat × String)) : Except PgError String :=
  match read_stat stats "last_sync_block_id" with
  | none => Except.error PgError.syncError
  | some sync_block_id =>
    match get_latest_block_id blocks with
    | some last_block_id =>
      if sync_block_id = last_block_id then Except.ok last_block_id
      else Except.error PgError.syncError
    | none => Except.error PgError.syncError

/-- Embeds the static pg_version constant (evt_pg.cpp line 21). -/
def pg_version : String := "1.0.0"

/-- Lexicographic byte-wise comparison of strings, as performed by
std::string operator< in `cur_ver >= pg_version` (evt_pg.cpp line 392):
a proper prefix is smaller, otherwise the first differing character decides. -/
def lexLt : List Char → List Char → Bool
  | [], [] => false
  | [], _ :: _ => true
  | _ :: _, [] => false
  | a :: as, b :: bs =>
    if a.toNat < b.toNat then true
    else if b.toNat < a.toNat then false
    else lexLt as bs

/-- Embeds pg::check_version (evt_pg.cpp lines 386-394): read the version
stat (absent: throw postgres_version_exception); assert
cur_ver >= pg_version under lexicographic string comparison (violation:
throw postgres_version_exception). -/
def check_version (stats : List (String × String)) : Except PgError Unit :=
  match read_stat stats "version" with
  | none => Except.error PgError.versionError
  | some cur_ver =>
    if lexLt cur_ver.data pg_version.data then Except.error PgError.versionError
    else Except.ok ()

/-- Embeds pg::add_stat (evt_pg.cpp lines 617-623): the single line appended
to the trx context buffer, EXECUTE as_plan('key','value'); followed by a
newline.  The key and value are interpolated verbatim into the single-quoted
SQL literals, with no escaping of any kind. -/
def add_stat (key value : String) : String :=
  "EXECUTE as_plan(\x27" ++ key ++ "\x27,\x27" ++ value ++ "\x27);\n"

/-- Drops an exact expected prefix from a character list, returning the rest;
none when the list does not start with that prefix. -/
def dropExact : List Char → List Char → Option (List Char)
  | [], rest => some rest
  | _ :: _, [] => none
  | p :: ps, c :: cs => if c = p then dropExact ps cs else none

/-- Parses the body of a single-quoted SQL string literal under the store's
quoting convention (the opening quote already consumed): a doubled quote
denotes one literal quote character, a single quote closes the literal.
Returns the decoded content and the remaining input. -/
def consumeSqlLit : List Char → List Char → Option (String × List Char)
  | _, [] => none
  | acc, c :: rest =>
    if c = sq then
      match rest with
      | c2 :: rest2 =>
        if c2 = sq then consumeSqlLit (sq :: acc) rest2
        else some (String.mk acc.reverse, c2 :: rest2)
      | [] => some (String.mk acc.reverse, [])
    else consumeSqlLit (c :: acc) rest

/-- Parses a single-quoted SQL string literal including its opening quote. -/
def parseSqlLit (cs : List Char) : Option (String × List Char) :=
  match cs with
  | [] => none
  | c :: rest => if c = sq then consumeSqlLit [] rest else none

/-- Parses an emitted add_stat statement line back under the store's quoting
convention: EXECUTE as_plan( literal , literal ); and a newline, yielding the
key and value the store would receive. -/
def parseStatValue (line : String) : Option (String × String) :=
  match dropExact "EXECUTE as_plan(".data line.data with
  | none => none
  | some r1 =>
    match parseSqlLit r1 with
    | none => none
    | some kv =>
      match dropExact ",".data kv.2 with
      | none => none
      | some r2 =>
        match parseSqlLit r2 with
        | none => none
        | some vv =>
          match dropExact ");\n".data vv.2 with
          | none => none
          | some r3 => if r3.isEmpty then some (kv.1, vv.1) else none

/-- Row fields of a bulk-ingest row: splits on the tab character. -/
def tabSplitAux : List Char → List Char → List String
  | acc, [] => [String.mk acc.reverse]
  | acc, c :: rest =>
    if c = Char.ofNat 9 then String.mk acc.reverse :: tabSplitAux [] rest
    else tabSplitAux (c :: acc) rest

/-- Splits a bulk-ingest row into its tab-separated fields. -/
def tabSplit (s : String) : List String :=
  tabSplitAux [] s.data

/-- Input of pg::add_block: the fields read from add_context and the block
header (evt_pg.cpp lines 470-483). -/
structure BlockInput where
  block_id : String
  block_num : Nat
  prev_block_id : String
  ts : String
  trx_merkle_root : String
  trx_count : Nat
  producer : String

/-- Embeds pg::add_block (evt_pg.cpp lines 470-483): the row text appended to
the blocks copy buffer by the single fmt::format_to call with format string
containing seven placeholders followed by the literal fields f and now. -/
def add_block (b : BlockInput) : String :=
  b.block_id ++ "\t" ++ toString b.block_num ++ "\t" ++ b.prev_block_id
    ++ "\t" ++ b.ts ++ "\t" ++ b.trx_merkle_root ++ "\t"
    ++ toString b.trx_count ++ "\t" ++ b.producer ++ "\tf\tnow\n"

/-- The three text buffers of a copy context (copy_context.hpp members
blocks_copy_, trxs_copy_, actions_copy_), modelled as the accumulated text. -/
structure CopyContext where
  blocks_copy_ : String
  trxs_copy_ : String
  actions_copy_ : String

/-- Embeds pg::commit_copy_context (evt_pg.cpp lines 437-448): the sequence of
bulk-ingest round trips (table name, payload) issued via block_copy_to —
blocks first, then transactions, then actions, each only when its buffer is
non-empty. -/
def commit_copy_context (c : CopyContext) : List (String × String) :=
  (if c.blocks_copy_.length > 0 then [("blocks", c.blocks_copy_)] else [])
    ++ (if c.trxs_copy_.length > 0 then [("transactions", c.trxs_copy_)] else [])
    ++ (if c.actions_copy_.length > 0 then [("actions", c.actions_copy_)] else [])

/-- Embeds pg::commit_trx_context (evt_pg.cpp lines 455-468): the sequence of
PQexec round trips issued — none when the trx buffer is empty, otherwise one
execution of the whole accumulated statement text. -/
def commit_trx_context (trx_buf_ : String) : List String :=
  if trx_buf_.length = 0 then [] else [trx_buf_]

/-- Accumulated digits of a decimal number; none on a non-digit character. -/
def digitsToNatAux : Nat → List Char → Option Nat
  | acc, [] => some acc
  | acc, c :: rest =>
    if c.isDigit then digitsToNatAux (acc * 10 + (c.toNat - 48)) rest
    else none

/-- Embeds boost::lexical_cast of a string to int64_t as used in add_meta
(evt_pg.cpp line 862): stream extraction of an optional sign followed by
decimal digits, consuming the whole string; none (an exception in the C++
code) on an empty string, a stray character, or int64 overflow. -/
def lexical_cast_int64 (s : String) : Option Int :=
  match s.data with
  | [] => none
  | c :: rest =>
    if c = Char.ofNat 45 then
      match rest with
      | [] => none
      | _ =>
        (digitsToNatAux 0 rest).bind
          (fun n => if n ≤ 2 ^ 63 then some (-(n : Int)) else none)
    else if c = Char.ofNat 43 then
      match rest with
      | [] => none
      | _ =>
        (digitsToNatAux 0 rest).bind
          (fun n => if n < 2 ^ 63 then some ((n : Int)) else none)
    else
      (digitsToNatAux 0 (c :: rest)).bind
        (fun n => if n < 2 ^ 63 then some ((n : Int)) else none)

/-- Entity-identifying fields of a ledger action (act.domain and act.key in
the C++ code), both 128-bit names rendered as strings. -/
structure ActionT where
  domain : String
  key : String

/-- Payload of an add-meta action (contracts type addmeta): metadata key,
value and creator, each already rendered to its string form. -/
structure AddMeta where
  key : String
  value : String
  creator : String

/-- The metadata-insert line emitted first by add_meta (evt_pg.cpp line 859):
EXECUTE am_plan('key','value','creator'); and a newline. -/
def meta_insert_line (am : AddMeta) : String :=
  "EXECUTE am_plan(\x27" ++ am.key ++ "\x27,\x27" ++ am.value ++ "\x27,\x27"
    ++ am.creator ++ "\x27);\n"

/-- Embeds pg::add_meta (evt_pg.cpp lines 841-878): appends the metadata
insert line, then exactly one owner-update line routed by the discriminators —
domain .fungible updates fungibles keyed by the action key cast to int64,
domain .group updates groups keyed by the action key, key .meta updates
domains keyed by the action domain, otherwise tokens keyed by domain:key.
Returns none when the fungible branch's lexical cast throws. -/
def add_meta (act : ActionT) (am : AddMeta) : Option (List String) :=
  if act.domain = ".fungible" then
    match lexical_cast_int64 act.key with
    | none => none
    | some n =>
      some [meta_insert_line am,
        "EXECUTE amf_plan(lastval()," ++ toString n ++ ");\n"]
  else if act.domain = ".group" then
    some [meta_insert_line am,
      "EXECUTE amg_plan(lastval(),\x27" ++ act.key ++ "\x27);\n"]
  else if act.key = ".meta" then
    some [meta_insert_line am,
      "EXECUTE amd_plan(lastval(),\x27" ++ act.domain ++ "\x27);\n"]
  else
    some [meta_insert_line am,
      "EXECUTE amt_plan(lastval(),\x27" ++ act.domain ++ ":" ++ act.key
        ++ "\x27);\n"]

/-- Renders the elements of an array literal the way the loops in add_tokens,
upd_token and the signatures loop of add_trx do (evt_pg.cpp lines 704-713):
every element but the last is emitted quoted with a trailing comma, the last
element quoted with no trailing comma. -/
def arrayBody : List String → String
  | [] => ""
  | [x] => "\"" ++ x ++ "\""
  | x :: y :: rest => "\"" ++ x ++ "\"," ++ arrayBody (y :: rest)

/-- The owners cache built by add_tokens (evt_pg.cpp lines 705-715): the
array literal text enclosed in braces. -/
def owners_literal (owner : List String) : String :=
  "\x7b" ++ arrayBody owner ++ "\x7d"

/-- Payload of an issuetoken action: target domain, issued token names, and
the initial owner set (public keys rendered as strings). -/
structure IssueToken where
  domain : String
  names : List String
  owner : List String

/-- One token-insert line of add_tokens (evt_pg.cpp lines 718-723):
EXECUTE it_plan('domain:name','domain','name','owners'); and a newline. -/
def it_line (domain name owners : String) : String :=
  "EXECUTE it_plan(\x27" ++ domain ++ ":" ++ name ++ "\x27,\x27" ++ domain
    ++ "\x27,\x27" ++ name ++ "\x27,\x27" ++ owners ++ "\x27);\n"

/-- Embeds pg::add_tokens (evt_pg.cpp lines 700-726): caches the rendered
owner array once, then appends one it_plan line per token name, in the order
the names appear in the action. -/
def add_tokens (it : IssueToken) : List String :=
  it.names.map (fun name => it_line it.domain name (owners_literal it.owner))

/-- Numeric tag of chain::transaction_ext::suspend_name.  The enum lives in an
external chain header, not in this plugin source; the pipeline only compares
extension tags against it for equality, so its concrete value is irrelevant
here and fixed to 0. -/
def suspend_name_ext : Nat := 0

/-- Per-block fields of add_context used by the row builders. -/
structure AddContext where
  block_id : String
  block_num : Nat
  ts : String

/-- Fields of a transaction read by pg::add_trx, combining the signed
transaction (id, action count, expiration, max_charge, payer, signatures,
extensions) and its receipt (type, status), each rendered to its string
form. -/
structure TrxInput where
  id : String
  action_count : Nat
  expiration : String
  max_charge : Nat
  payer : String
  type : String
  status : String
  signatures : List String
  transaction_extensions : List (Nat × String)

/-- Wraps an array element in double quotes as the rendering loops do. -/
def quoteWrap (s : String) : String := "\"" ++ s ++ "\""

/-- The signatures array column of add_trx (evt_pg.cpp lines 504-513): brace
open, all but the last signature quoted with a trailing comma, the last
signature quoted without one, brace close. -/
def sig_array (signatures : List String) : String :=
  "\x7b" ++ arrayBody signatures ++ "\x7d"

/-- The recovered-keys array column of add_trx (evt_pg.cpp lines 515-525):
when the signature set is empty the braces are emitted empty; otherwise the
loop runs over every index of the key set emitting each key quoted with a
trailing comma, and afterwards the last key is emitted once more without a
comma.  None models the out-of-range nth access when the key set is empty
while signatures are not. -/
def keys_array (signatures keys : List String) : Option String :=
  if signatures.isEmpty then some "\x7b\x7d"
  else
    match keys.getLast? with
    | none => none
    | some last =>
      some ("\x7b" ++ String.join (keys.map (fun k => quoteWrap k ++ ","))
        ++ quoteWrap last ++ "\x7d")

/-- Embeds pg::add_trx (evt_pg.cpp lines 485-551): the row text appended to
the transactions copy buffer — the scalar head fields with the literal f for
pending, the signatures array, the recovered-keys array (keys is the key set
recovered by get_signature_keys, external crypto passed as an input), the
trace fields, then the suspend-name extension when the first matching
extension exists, otherwise the null marker, and the trailing now column. -/
def add_trx (actx : AddContext) (trx : TrxInput) (keys : List String)
    (seq_num elapsed charge : Int) : Option String :=
  match keys_array trx.signatures keys with
  | none => none
  | some ka =>
    some (trx.id ++ "\t" ++ toString seq_num ++ "\t" ++ actx.block_id ++ "\t"
      ++ toString actx.block_num ++ "\t" ++ toString trx.action_count ++ "\t"
      ++ actx.ts ++ "\t" ++ trx.expiration ++ "\t" ++ toString trx.max_charge
      ++ "\t" ++ trx.payer ++ "\tf\t" ++ trx.type ++ "\t" ++ trx.status
      ++ "\t" ++ sig_array trx.signatures ++ "\t" ++ ka ++ "\t"
      ++ toString elapsed ++ "\t" ++ toString charge ++ "\t"
      ++ (match trx.transaction_extensions.find?
            (fun e => e.1 = suspend_name_ext) with
          | some e => e.2 ++ "\tnow\n"
          | none => "\\N\tnow\n"))

/-- Payload of an updatedomain action: the domain name and the three optional
permission documents, each modelled by its JSON serialization when present
(the C++ code substitutes the literal strings issue/transfer/manage when the
corresponding optional is absent). -/
structure UpdateDomain where
  name : String
  issue : Option String
  transfer : Option String
  manage : Option String

/-- The statement name registered by upd_domain's PREPARE_SQL_ONCE
(evt_pg.cpp line 676). -/
def upd_domain_prepared : String := "ud_plan"

/-- Embeds pg::upd_domain (evt_pg.cpp lines 674-698): the single line it
appends to the trx context buffer, with the three documents first and the
domain name last (note the space the format string places before the fourth
argument). -/
def upd_domain (ud : UpdateDomain) : List String :=
  ["EXECUTE up_plan(\x27" ++ ud.issue.getD "issue" ++ "\x27,\x27"
    ++ ud.transfer.getD "transfer" ++ "\x27,\x27" ++ ud.manage.getD "manage"
    ++ "\x27, \x27" ++ ud.name ++ "\x27);\n"]

/-- Collects characters up to the first opening parenthesis, returning the
collected name and the rest after the parenthesis. -/
def takeNameAux : List Char → List Char → Option (String × List Char)
  | _, [] => none
  | acc, c :: rest =>
    if c = Char.ofNat 40 then some (String.mk acc.reverse, rest)
    else takeNameAux (c :: acc) rest

/-- Extracts the prepared-statement name invoked by an emitted statement-log
line of the shape EXECUTE name(...). -/
def execStmtName (line : String) : Option String :=
  match dropExact "EXECUTE ".data line.data with
  | none => none
  | some rest => (takeNameAux [] rest).map (fun p => p.1)

/-- Parses an emitted statement-log line of the shape
EXECUTE name('arg1','arg2'); yielding the invoked statement name, the first
bound argument and the second bound argument as the store decodes them. -/
def parseExecTwo (line : String) : Option (String × String × String) :=
  match dropExact "EXECUTE ".data line.data with
  | none => none
  | some r0 =>
    match takeNameAux [] r0 with
    | none => none
    | some np =>
      match parseSqlLit np.2 with
      | none => none
      | some a1 =>
        match dropExact ",".data a1.2 with
        | none => none
        | some r2 =>
          match parseSqlLit r2 with
          | none => none
          | some a2 =>
            match dropExact ");".data a2.2 with
            | none => none
            | some _ => some (np.1, a1.1, a2.1)

/-- Payload of an updategroup action: the group name and the JSON
serialization of the root of the new group definition
(fc::json::to_string of u[root] in the C++ code). -/
structure UpdateGroup where
  name : String
  group_root : String

/-- The SQL text prepared for upd_group under the name ug_plan
(evt_pg.cpp line 784): parameter $1 is the new def document and parameter
$2 is the row's name key. -/
def ug_plan_sql : String := "UPDATE groups SET(def) = ($1) WHERE name = $2;"

/-- Embeds pg::upd_group (evt_pg.cpp lines 782-796): the single line it
appends to the trx context buffer, passing the group name as the first
argument and the serialized definition root as the second (and no trailing
newline). -/
def upd_group (ug : UpdateGroup) : List String :=
  ["EXECUTE ug_plan(\x27" ++ ug.name ++ "\x27,\x27" ++ ug.group_root
    ++ "\x27);"]

end pg

/-- C1: check_last_sync_block fails with a sync error when the
last_sync_block_id stat is absent; when the stat is present and the blocks
table has a latest row, the check succeeds and records the latest block id
exactly when the stat equals that id, and fails with a sync error when they
disagree. -/
theorem pg.check_last_sync_block_spec (stats : List (String × String))
    (blocks : List (Nat × String)) :
    (pg.read_stat stats "last_sync_block_id" = none →
      pg.check_last_sync_block stats blocks = Except.error pg.PgError.syncError)
    ∧ (∀ s b, pg.read_stat stats "last_sync_block_id" = some s →
        pg.get_latest_block_id blocks = some b →
        ((s = b → pg.check_last_sync_block stats blocks = Except.ok b)
          ∧ (s ≠ b →
              pg.check_last_sync_block stats blocks
                = Except.error pg.PgError.syncError))) := by
  constructor
  · intro h
    simp [pg.check_last_sync_block, h]
  · intro s b hs hb
    constructor
    · intro heq
      simp [pg.check_last_sync_block, hs, hb, heq]
    · intro hne
      simp [pg.check_last_sync_block, hs, hb, hne]

/-- Witness for C1: on a store whose checkpoint stat and latest block row both
carry id B1, the startup check succeeds and records B1. -/
theorem pg.check_last_sync_block_spec_witness :
    pg.check_last_sync_block [("last_sync_block_id", "B1")] [(1, "B1")]
      = Except.ok "B1" :=
  ((pg.check_last_sync_block_spec [("last_sync_block_id", "B1")]
      [(1, "B1")]).2 "B1" "B1" rfl rfl).1 rfl

/-- C5: check_version fails with a version error when the version stat is
absent or lexicographically less than the running version string pg_version,
and succeeds when the stored string is lexicographically equal to or greater
than pg_version. -/
theorem pg.check_version_spec (stats : List (String × String)) :
    (pg.read_stat stats "version" = none →
      pg.check_version stats = Except.error pg.PgError.versionError)
    ∧ (∀ v, pg.read_stat stats "version" = some v →
        ((pg.lexLt v.data pg.pg_version.data = true →
            pg.check_version stats = Except.error pg.PgError.versionError)
          ∧ (pg.lexLt v.data pg.pg_version.data = false →
            pg.check_version stats = Except.ok ()))) := by
  constructor
  · intro h
    simp [pg.check_version, h]
  · intro v hv
    constructor
    · intro hlt
      simp [pg.check_version, hv, hlt]
    · intro hge
      simp [pg.check_version, hv, hge]

/-- Witness for C5: a store carrying version string 1.1.0, lexicographically
greater than the running version 1.0.0, passes the version gate. -/
theorem pg.check_version_spec_witness :
    pg.lexLt "1.1.0".data pg.pg_version.data = false
      ∧ pg.check_version [("version", "1.1.0")] = Except.ok () :=
  ⟨by decide,
    ((pg.check_version_spec [("version", "1.1.0")]).2 "1.1.0" rfl).2 (by decide)⟩

/-- C2: the code does not escape values appended to statement-log lines.  A
value without special characters round-trips through the emitted add_stat
line, but the value containing a quote character is interpolated verbatim
into the single-quoted literal, and the emitted statement text no longer
parses back to the original value under the store's quoting convention (it
does not parse at all). -/
theorem pg.add_stat_value_not_escaped :
    pg.parseStatValue (pg.add_stat "k" "plain") = some ("k", "plain")
    ∧ pg.add_stat "k" "a\x27b" = "EXECUTE as_plan(\x27k\x27,\x27a\x27b\x27);\n"
    ∧ pg.parseStatValue (pg.add_stat "k" "a\x27b") = none
    ∧ pg.parseStatValue (pg.add_stat "k" "a\x27b") ≠ some ("k", "a\x27b") := by
  refine ⟨by decide, by decide, by decide, by decide⟩

/-- C3: the row text produced by add_block renders the pending column (the
eighth tab-separated field) as the bulk-ingest boolean literal f, i.e. the
block row is inserted with pending=false, not pending=true as specified. -/
theorem pg.add_block_renders_pending_false :
    pg.add_block ⟨"B1", 1, "B0", "TS", "MR", 2, "prod"⟩
      = "B1\t1\tB0\tTS\tMR\t2\tprod\tf\tnow\n"
    ∧ (pg.tabSplit (pg.add_block ⟨"B1", 1, "B0", "TS", "MR", 2, "prod"⟩))[7]?
        = some "f" := by
  refine ⟨by decide, by decide⟩

/-- C10: committing empty buffers performs zero round trips, and committing a
copy context flushes exactly the non-empty streams, in the fixed order
blocks, transactions, actions. -/
theorem pg.commit_skips_empty_buffers :
    pg.commit_copy_context ⟨"", "", ""⟩ = []
    ∧ pg.commit_trx_context "" = []
    ∧ (∀ c : pg.CopyContext,
        (pg.commit_copy_context c).map Prod.fst =
          (if c.blocks_copy_.length > 0 then ["blocks"] else [])
            ++ (if c.trxs_copy_.length > 0 then ["transactions"] else [])
            ++ (if c.actions_copy_.length > 0 then ["actions"] else []))
    ∧ (∀ c : pg.CopyContext,
        List.Sublist ((pg.commit_copy_context c).map Prod.fst)
          ["blocks", "transactions", "actions"]) := by
  refine ⟨rfl, rfl, ?_, ?_⟩
  · intro c
    simp only [pg.commit_copy_context, List.map_append]
    split <;> split <;> split <;> simp
  · intro c
    simp only [pg.commit_copy_context, List.map_append]
    split <;> split <;> split <;> simp

/-- C4: add_meta appends exactly the metadata-insert line followed by exactly
one owner-update line, routed by the discriminators — fungible-domain actions
update the fungibles row keyed by the action key cast to a symbol id,
group-domain actions update the groups row keyed by the action key,
domain-self-meta actions update the domains row keyed by the action domain,
and all remaining actions update the tokens row keyed by domain:key. -/
theorem pg.add_meta_routing (act : pg.ActionT) (am : pg.AddMeta) :
    (act.domain = ".fungible" → ∀ n, pg.lexical_cast_int64 act.key = some n →
      pg.add_meta act am = some [pg.meta_insert_line am,
        "EXECUTE amf_plan(lastval()," ++ toString n ++ ");\n"])
    ∧ (act.domain ≠ ".fungible" → act.domain = ".group" →
      pg.add_meta act am = some [pg.meta_insert_line am,
        "EXECUTE amg_plan(lastval(),\x27" ++ act.key ++ "\x27);\n"])
    ∧ (act.domain ≠ ".fungible" → act.domain ≠ ".group" → act.key = ".meta" →
      pg.add_meta act am = some [pg.meta_insert_line am,
        "EXECUTE amd_plan(lastval(),\x27" ++ act.domain ++ "\x27);\n"])
    ∧ (act.domain ≠ ".fungible" → act.domain ≠ ".group" → act.key ≠ ".meta" →
      pg.add_meta act am = some [pg.meta_insert_line am,
        "EXECUTE amt_plan(lastval(),\x27" ++ act.domain ++ ":" ++ act.key
          ++ "\x27);\n"]) := by
  refine ⟨?_, ?_, ?_, ?_⟩
  · intro hd n hn
    simp [pg.add_meta, hd, hn]
  · intro hd hg
    simp [pg.add_meta, hd, hg]
  · intro hd hg hk
    simp [pg.add_meta, hd, hg, hk]
  · intro hd hg hk
    simp [pg.add_meta, hd, hg, hk]

/-- Witness for C4: an add-meta action in the sentinel group domain routes its
owner update to the groups table, keyed by the action key, right after the
metadata insert. -/
theorem pg.add_meta_routing_witness :
    pg.add_meta ⟨".group", "gname"⟩ ⟨"k1", "v1", "c1"⟩
      = some [pg.meta_insert_line ⟨"k1", "v1", "c1"⟩,
        "EXECUTE amg_plan(lastval(),\x27gname\x27);\n"] :=
  (pg.add_meta_routing ⟨".group", "gname"⟩ ⟨"k1", "v1", "c1"⟩).2.1
    (by decide) rfl

/-- C6: add_tokens appends exactly one insert line per token name carried by
the issue action, in order, each line formed from the shared domain and the
identical rendered owner array. -/
theorem pg.add_tokens_fanout (it : pg.IssueToken) :
    (pg.add_tokens it).length = it.names.length
    ∧ ∀ (i : Nat) (name : String), it.names[i]? = some name →
        (pg.add_tokens it)[i]? =
          some (pg.it_line it.domain name (pg.owners_literal it.owner)) := by
  constructor
  · simp [pg.add_tokens]
  · intro i name h
    simp [pg.add_tokens, h]

/-- Witness for C6: issuing two names mints two rows, and the second line is
the insert for the second name with the shared owner array. -/
theorem pg.add_tokens_fanout_witness :
    (pg.add_tokens ⟨"d", ["n1", "n2"], ["o1"]⟩).length = 2
    ∧ (pg.add_tokens ⟨"d", ["n1", "n2"], ["o1"]⟩)[1]? =
        some (pg.it_line "d" "n2" (pg.owners_literal ["o1"])) :=
  ⟨(pg.add_tokens_fanout ⟨"d", ["n1", "n2"], ["o1"]⟩).1,
    (pg.add_tokens_fanout ⟨"d", ["n1", "n2"], ["o1"]⟩).2 1 "n2" rfl⟩

/-- C7: the recovered-keys array column of an add_trx row duplicates the last
key — a transaction with one signature whose recovered key set is the single
key k renders the keys column as an array of two elements k,k, not one; the
two-key case likewise gains a third element.  The full row at the one-key
input is evaluated, showing the duplicated fourteenth field alongside the
correctly rendered signatures array and the null suspend marker. -/
theorem pg.add_trx_duplicates_last_key :
    pg.add_trx ⟨"B", 3, "TS"⟩ ⟨"T", 1, "EXP", 0, "P", "ty", "ok", ["s1"], []⟩
        ["k"] 0 5 6
      = some "T\t0\tB\t3\t1\tTS\tEXP\t0\tP\tf\tty\tok\t\x7b\"s1\"\x7d\t\x7b\"k\",\"k\"\x7d\t5\t6\t\\N\tnow\n"
    ∧ pg.keys_array ["s1", "s2"] ["k1", "k2"]
        = some "\x7b\"k1\",\"k2\",\"k2\"\x7d" := by
  refine ⟨by decide, by decide⟩

/-- C8: the update-domain translator registers the prepared statement under
the name ud_plan but the line it emits invokes the name up_plan, which no
translator ever prepares — the emitted statement name differs from the
prepared one. -/
theorem pg.upd_domain_unprepared_name :
    pg.upd_domain ⟨"d1", none, none, none⟩
      = ["EXECUTE up_plan(\x27issue\x27,\x27transfer\x27,\x27manage\x27, \x27d1\x27);\n"]
    ∧ pg.execStmtName
        "EXECUTE up_plan(\x27issue\x27,\x27transfer\x27,\x27manage\x27, \x27d1\x27);\n"
        = some "up_plan"
    ∧ pg.upd_domain_prepared = "ud_plan"
    ∧ pg.execStmtName
        "EXECUTE up_plan(\x27issue\x27,\x27transfer\x27,\x27manage\x27, \x27d1\x27);\n"
        ≠ some pg.upd_domain_prepared := by
  refine ⟨by decide, by decide, by decide, by decide⟩

/-- C9: the update-group translator binds the group name as the first argument
of ug_plan and the serialized definition as the second, although the prepared
SQL sets def from $1 and matches name against $2 — the two arguments are
swapped relative to the claim. -/
theorem pg.upd_group_swaps_arguments :
    pg.upd_group ⟨"grp", "[\"A\",1]"⟩
      = ["EXECUTE ug_plan(\x27grp\x27,\x27[\"A\",1]\x27);"]
    ∧ pg.parseExecTwo "EXECUTE ug_plan(\x27grp\x27,\x27[\"A\",1]\x27);"
        = some ("ug_plan", "grp", "[\"A\",1]")
    ∧ pg.ug_plan_sql = "UPDATE groups SET(def) = ($1) WHERE name = $2;" := by
  refine ⟨by decide, by decide, by decide⟩
